import Mathlib

/-!
Verification of the FFmpeg bridging layer of SirSnoopsALot
(src/BridgingHeaders/FFmpegInterrupt.c, FFmpegHWAccel.c, FFmpegBridge.h)
as a shallow embedding in Lean 4.

Pointers are modelled as `Option` of an identifier into an explicit heap;
machine `int` is modelled as `Int`; the fallible external library calls
(`av_hwdevice_ctx_create`, `av_buffer_ref`) are modelled as explicit
parameters recording their outcome.
-/

namespace SirSnoopsALot

/-! ## Cancellation gate data model (FFmpegBridge.h / FFmpegInterrupt.c)

`typedef struct FFAbort { volatile int flag; } FFAbort;`

Gates and format contexts live in heaps indexed by `Nat`; a C pointer is
an `Option Nat` (`none` = NULL). -/

abbrev GateId := Nat
abbrev CtxId := Nat

/-- The only interrupt callback function the core ever installs
(`ff_interrupt_cb_internal`). Modelled as a one-constructor type so that
"which function pointer is stored in the callback slot" is observable. -/
inductive CallbackFn where
  | ffInterruptCbInternal
deriving DecidableEq, Repr

/-- Struct `AVIOInterruptCB`: the two fields of the interrupt-callback slot that
`ff_install_interrupt_cb` writes.  The C field named `opaque` is rendered
here as `userPtr`. -/
structure AVIOInterruptCB where
  callback : Option CallbackFn
  userPtr : Option GateId
deriving DecidableEq, Repr

/-- The portion of `AVFormatContext` the core touches, plus one abstract
field standing for everything else (to state frame conditions). -/
structure AVFormatContext where
  interrupt_callback : AVIOInterruptCB
  otherFields : Int
deriving DecidableEq, Repr

/-- Global state visible to the interrupt component: the flags of all
gates and the heap of format contexts. -/
structure CoreState where
  gates : GateId → Int
  ctxs : CtxId → AVFormatContext

/-- C function `static int ff_interrupt_cb_internal(void *opaque)`:

```
FFAbort *abortFlag = (FFAbort *)opaque;
return (abortFlag && abortFlag->flag) ? 1 : 0;
```

Reads the gate's flag from the current state; `none` is a NULL pointer. -/
def ff_interrupt_cb_internal (s : CoreState) (g : Option GateId) : Int :=
  match g with
  | none => 0
  | some gid => if s.gates gid ≠ 0 then 1 else 0

/-- C function `void ff_install_interrupt_cb(AVFormatContext *fmt, FFAbort *abortFlag)`:

```
if (!fmt) { return; }
fmt->interrupt_callback.callback = ff_interrupt_cb_internal;
fmt->interrupt_callback.opaque = abortFlag;
```

Returns the post-state. -/
def ff_install_interrupt_cb (s : CoreState) (fmt : Option CtxId)
    (abortFlag : Option GateId) : CoreState :=
  match fmt with
  | none => s
  | some fid =>
      { s with
        ctxs := Function.update s.ctxs fid
          { s.ctxs fid with
            interrupt_callback :=
              { callback := some CallbackFn.ffInterruptCbInternal
                userPtr := abortFlag } } }

/-- What the native library observes when it polls a context's interrupt
hook: invoke the stored callback on the stored user pointer; an empty
callback slot means "continue" (0). -/
def contextInterruptResult (s : CoreState) (fid : CtxId) : Int :=
  match (s.ctxs fid).interrupt_callback.callback with
  | none => 0
  | some CallbackFn.ffInterruptCbInternal =>
      ff_interrupt_cb_internal s (s.ctxs fid).interrupt_callback.userPtr

/-- A sequence of installer calls by the core, applied in order. -/
def runInstalls (s : CoreState) : List (Option CtxId × Option GateId) → CoreState
  | [] => s
  | (fmt, g) :: rest => runInstalls (ff_install_interrupt_cb s fmt g) rest

/-! ## Error-code translators (FFmpegInterrupt.c)

`int fferr_eagain(void) { return AVERROR(EAGAIN); }`
`int fferr_eof(void) { return AVERROR_EOF; }`

The numeric values come from the FFmpeg/libc headers the file includes:
on Darwin (the VideoToolbox target) `EAGAIN = 35`, `AVERROR(e) = -e`, and
`AVERROR_EOF = FFERRTAG('E','O','F',' ') = -MKTAG('E','O','F',' ')`. -/

def EAGAIN : Int := 35

/-- Macro `AVERROR(e)`: negate a positive POSIX errno. -/
def AVERROR (e : Int) : Int := -e

/-- Value of `-MKTAG(a,b,c,d)` with `MKTAG(a,b,c,d) = a | (b << 8) | (c << 16) | (d << 24)`
at the character codes of `'E','O','F',' '`. -/
def AVERROR_EOF : Int := -(69 + 79 * 256 + 70 * 65536 + 32 * 16777216)

def fferr_eagain (_ : Unit) : Int := AVERROR EAGAIN

def fferr_eof (_ : Unit) : Int := AVERROR_EOF

/-! ## Hardware format negotiator (FFmpegHWAccel.c)

Pixel formats are the values of `enum AVPixelFormat`; the two the code
names are `AV_PIX_FMT_NONE = -1` (the list terminator) and
`AV_PIX_FMT_VIDEOTOOLBOX` (a distinct non-negative enumerator). -/

def AV_PIX_FMT_NONE : Int := -1

def AV_PIX_FMT_VIDEOTOOLBOX : Int := 160

/-- The `while (*p != AV_PIX_FMT_NONE)` scan of `ssa_get_hw_format`:
walk the array until the terminator, returning the hardware format if
found before it.  The list models the raw array contents from `p` on;
well-formed arrays contain the terminator. -/
def ssa_scan (p : List Int) : Option Int :=
  match p with
  | [] => none
  | f :: rest =>
      if f = AV_PIX_FMT_NONE then none
      else if f = AV_PIX_FMT_VIDEOTOOLBOX then some f
      else ssa_scan rest

/-- C function `static enum AVPixelFormat ssa_get_hw_format(AVCodecContext *ctx,
const enum AVPixelFormat *pix_fmts)`:

```
const enum AVPixelFormat *p = pix_fmts;
while (*p != AV_PIX_FMT_NONE) {
    if (*p == AV_PIX_FMT_VIDEOTOOLBOX) { return *p; }
    p++;
}
return pix_fmts[0];
```

The codec-context argument is unused by the C body and omitted.  The
`List Int` is the raw null-terminated array; `pix_fmts[0]` on the model of
a well-formed array is its head. -/
def ssa_get_hw_format (pix_fmts : List Int) : Int :=
  match ssa_scan pix_fmts with
  | some f => f
  | none => pix_fmts.headD AV_PIX_FMT_NONE

/-- The candidate set proper: the entries of the raw array strictly before
the `AV_PIX_FMT_NONE` terminator. -/
def candidates : List Int → List Int
  | [] => []
  | f :: rest => if f = AV_PIX_FMT_NONE then [] else f :: candidates rest

/-! ## VideoToolbox setup routine (FFmpegHWAccel.c)

`int ssa_setup_videotoolbox(AVCodecContext *ctx)` calls two fallible
library functions whose outcomes the core does not control; they are
modelled as an explicit environment:
`av_hwdevice_ctx_create` returns a status (negative = failure, and then
no device is produced), and `av_buffer_ref` duplicates a reference but
returns NULL on allocation failure.  Reference counting on the single
created device is tracked explicitly. -/

/-- The only `get_format` callback the core ever installs. -/
inductive GetFormatFn where
  | ssaGetHwFormat
deriving DecidableEq, Repr

/-- The portion of `AVCodecContext` the core touches, plus one abstract
field standing for everything else. `hw_device_ctx` is NULL (`none`) or a
reference to the created hardware device. -/
structure AVCodecContext where
  hw_device_ctx : Option Unit
  get_format : Option GetFormatFn
  otherFields : Int
deriving DecidableEq, Repr

/-- Outcomes of the two external library calls made by the setup routine. -/
structure SetupEnv where
  /-- return value of `av_hwdevice_ctx_create` -/
  createErr : Int
  /-- whether `av_buffer_ref` succeeds (returns non-NULL) -/
  bufferRefOk : Bool
deriving DecidableEq, Repr

/-- Result of running the setup routine: the returned status, the codec
context after the call, the number of outstanding references on the
created hardware device (0 when none was created or it was freed), and
the routine's local `hw_device_ctx` variable at return. -/
structure SetupResult where
  ret : Int
  ctx : AVCodecContext
  devRefcount : Nat
  localRef : Option Unit
deriving DecidableEq, Repr

/-- C function `int ssa_setup_videotoolbox(AVCodecContext *ctx)`:

```
AVBufferRef *hw_device_ctx = NULL;
int err = av_hwdevice_ctx_create(&hw_device_ctx, AV_HWDEVICE_TYPE_VIDEOTOOLBOX, NULL, NULL, 0);
if (err < 0) { return err; }
ctx->hw_device_ctx = av_buffer_ref(hw_device_ctx);
av_buffer_unref(&hw_device_ctx);
ctx->get_format = ssa_get_hw_format;
return 0;
```

On create success the local variable owns one reference; `av_buffer_ref`
adds one when it succeeds; `av_buffer_unref` drops the local one and
NULLs the variable. -/
def ssa_setup_videotoolbox (env : SetupEnv) (ctx : AVCodecContext) : SetupResult :=
  let err := env.createErr
  if err < 0 then
    { ret := err, ctx := ctx, devRefcount := 0, localRef := none }
  else
    -- create succeeded: refcount 1, held by the local variable
    let dup : Option Unit := if env.bufferRefOk then some () else none
    let refAfterDup : Nat := if env.bufferRefOk then 2 else 1
    let ctx1 := { ctx with hw_device_ctx := dup }
    -- av_buffer_unref(&hw_device_ctx)
    let refAfterUnref := refAfterDup - 1
    let ctx2 := { ctx1 with get_format := some GetFormatFn.ssaGetHwFormat }
    { ret := 0, ctx := ctx2, devRefcount := refAfterUnref, localRef := none }

/-! ## Concrete sample inputs used by witnesses -/

def sampleFmtCtx : AVFormatContext :=
  { interrupt_callback := { callback := none, userPtr := none }, otherFields := 0 }

def sampleState : CoreState :=
  { gates := fun _ => 1, ctxs := fun _ => sampleFmtCtx }

def emptyCodecCtx : AVCodecContext :=
  { hw_device_ctx := none, get_format := none, otherFields := 7 }

def samplePixFmts : List Int := [100, AV_PIX_FMT_VIDEOTOOLBOX, AV_PIX_FMT_NONE]

def failEnv : SetupEnv := { createErr := -2, bufferRefOk := true }

def okEnv : SetupEnv := { createErr := 0, bufferRefOk := true }

def dupFailEnv : SetupEnv := { createErr := 0, bufferRefOk := false }

/-! ## Helper lemmas -/

theorem ssa_scan_eq (l : List Int) :
    ssa_scan l =
      if AV_PIX_FMT_VIDEOTOOLBOX ∈ candidates l then some AV_PIX_FMT_VIDEOTOOLBOX
      else none := by
  induction l with
  | nil => simp [ssa_scan, candidates]
  | cons f rest ih =>
      by_cases hn : f = AV_PIX_FMT_NONE
      · subst hn
        simp [ssa_scan, candidates, AV_PIX_FMT_NONE, AV_PIX_FMT_VIDEOTOOLBOX]
      · by_cases hv : f = AV_PIX_FMT_VIDEOTOOLBOX
        · subst hv
          simp [ssa_scan, candidates, hn]
        · simp [ssa_scan, candidates, hn, hv, ih, Ne.symm hv]

theorem ssa_get_hw_format_eq (l : List Int) :
    ssa_get_hw_format l =
      if AV_PIX_FMT_VIDEOTOOLBOX ∈ candidates l then AV_PIX_FMT_VIDEOTOOLBOX
      else l.headD AV_PIX_FMT_NONE := by
  rw [ssa_get_hw_format, ssa_scan_eq]
  by_cases h : AV_PIX_FMT_VIDEOTOOLBOX ∈ candidates l <;> simp [h]

theorem candidates_subset (l : List Int) :
    ∀ x ∈ candidates l, x ∈ l := by
  induction l with
  | nil => simp [candidates]
  | cons f rest ih =>
      by_cases h : f = AV_PIX_FMT_NONE
      · simp [candidates, h]
      · intro x hx
        rw [candidates, if_neg h] at hx
        rcases List.mem_cons.mp hx with rfl | hx
        · exact List.mem_cons_self _ _
        · exact List.mem_cons_of_mem _ (ih x hx)

theorem runInstalls_gates (s : CoreState)
    (ops : List (Option CtxId × Option GateId)) :
    (runInstalls s ops).gates = s.gates := by
  induction ops generalizing s with
  | nil => rfl
  | cons op rest ih =>
      obtain ⟨fmt, g⟩ := op
      show (runInstalls (ff_install_interrupt_cb s fmt g) rest).gates = s.gates
      rw [ih]
      cases fmt <;> rfl

/-! ## Claim theorems -/

/-- C1: the interrupt predicate returns "abort" (1, truthy) iff the gate
pointer is non-null and the gate's flag is non-zero at the moment of the
check; in every other case (null gate, or flag zero) it returns
"continue" (0). -/
theorem interrupt_predicate_iff (s : CoreState) (g : Option GateId) :
    (ff_interrupt_cb_internal s g = 1 ↔ ∃ gid, g = some gid ∧ s.gates gid ≠ 0)
    ∧ (ff_interrupt_cb_internal s g = 0 ↔ ¬∃ gid, g = some gid ∧ s.gates gid ≠ 0) := by
  cases g with
  | none => simp [ff_interrupt_cb_internal]
  | some gid =>
      by_cases h : s.gates gid = 0 <;>
        simp [ff_interrupt_cb_internal, h]

/-- C4: once a gate's flag is non-zero, the core cannot revert it: no core
operation (any sequence of installer calls) writes any gate's flag, and
the interrupt predicate on that gate returns "abort" (1) after any such
sequence. -/
theorem signaled_gate_stays_abort (s : CoreState) (gid : GateId)
    (ops : List (Option CtxId × Option GateId)) (h : s.gates gid ≠ 0) :
    (runInstalls s ops).gates = s.gates
    ∧ ff_interrupt_cb_internal (runInstalls s ops) (some gid) = 1 := by
  have hg := runInstalls_gates s ops
  exact ⟨hg, by simp [ff_interrupt_cb_internal, hg, h]⟩

/-- Witness for C4 at a concrete state, gate and operation sequence. -/
theorem signaled_gate_stays_abort_witness :
    sampleState.gates 2 ≠ 0
    ∧ ((runInstalls sampleState [(some 0, some 1), (none, none)]).gates = sampleState.gates
       ∧ ff_interrupt_cb_internal
           (runInstalls sampleState [(some 0, some 1), (none, none)]) (some 2) = 1) :=
  ⟨by decide,
   signaled_gate_stays_abort sampleState 2 [(some 0, some 1), (none, none)] (by decide)⟩

/-- C5: installing on a null streaming-context handle is a no-op for every
gate value: the state is returned unchanged and no error is signaled. -/
theorem install_null_context_noop (s : CoreState) (g : Option GateId) :
    ff_install_interrupt_cb s none g = s := rfl

/-- C6: install is last-write-wins: two installs on the same non-null
context leave exactly the state of the second install alone, and
installing a non-null gate then a null gate makes the context's interrupt
hook always report "continue" (0), regardless of any gate's flag. -/
theorem install_last_write_wins (s : CoreState) (fid : CtxId)
    (g1 g2 : Option GateId) :
    ff_install_interrupt_cb (ff_install_interrupt_cb s (some fid) g1) (some fid) g2
      = ff_install_interrupt_cb s (some fid) g2
    ∧ contextInterruptResult
        (ff_install_interrupt_cb (ff_install_interrupt_cb s (some fid) g1)
          (some fid) none) fid = 0 := by
  constructor
  · simp [ff_install_interrupt_cb, Function.update_same, Function.update_idem]
  · simp [contextInterruptResult, ff_install_interrupt_cb, ff_interrupt_cb_internal,
      Function.update_same]

/-- C2: over a well-formed candidate array (terminated, at least one
entry), the negotiator returns the hardware format iff it occurs among
the candidates, otherwise the first element of the list; in both cases
the result is a member of the candidate set (hence of the input list). -/
theorem negotiator_policy (l : List Int)
    (hterm : AV_PIX_FMT_NONE ∈ l) (hne : candidates l ≠ []) :
    (AV_PIX_FMT_VIDEOTOOLBOX ∈ candidates l →
        ssa_get_hw_format l = AV_PIX_FMT_VIDEOTOOLBOX)
    ∧ (AV_PIX_FMT_VIDEOTOOLBOX ∉ candidates l →
        ssa_get_hw_format l = l.headD AV_PIX_FMT_NONE
        ∧ l.headD AV_PIX_FMT_NONE = (candidates l).headD AV_PIX_FMT_NONE)
    ∧ ssa_get_hw_format l ∈ candidates l
    ∧ ssa_get_hw_format l ∈ l := by
  obtain ⟨a, t, rfl⟩ : ∃ a t, l = a :: t := by
    cases l with
    | nil => simp [candidates] at hne
    | cons a t => exact ⟨a, t, rfl⟩
  have ha : a ≠ AV_PIX_FMT_NONE := by
    intro h
    exact hne (by simp [candidates, h])
  have hc : candidates (a :: t) = a :: candidates t := by
    simp [candidates, ha]
  rw [ssa_get_hw_format_eq]
  by_cases hv : AV_PIX_FMT_VIDEOTOOLBOX ∈ candidates (a :: t)
  · rw [if_pos hv]
    exact ⟨fun _ => rfl, fun hn => absurd hv hn, hv, candidates_subset _ _ hv⟩
  · rw [if_neg hv]
    refine ⟨fun h => absurd h hv, fun _ => ⟨rfl, ?_⟩, ?_, ?_⟩
    · rw [hc]
      rfl
    · rw [hc]
      simp
    · simp

/-- Witness for C2 at a concrete well-formed candidate array. -/
theorem negotiator_policy_witness :
    AV_PIX_FMT_NONE ∈ samplePixFmts
    ∧ candidates samplePixFmts ≠ []
    ∧ ((AV_PIX_FMT_VIDEOTOOLBOX ∈ candidates samplePixFmts →
          ssa_get_hw_format samplePixFmts = AV_PIX_FMT_VIDEOTOOLBOX)
       ∧ (AV_PIX_FMT_VIDEOTOOLBOX ∉ candidates samplePixFmts →
          ssa_get_hw_format samplePixFmts = samplePixFmts.headD AV_PIX_FMT_NONE
          ∧ samplePixFmts.headD AV_PIX_FMT_NONE
              = (candidates samplePixFmts).headD AV_PIX_FMT_NONE)
       ∧ ssa_get_hw_format samplePixFmts ∈ candidates samplePixFmts
       ∧ ssa_get_hw_format samplePixFmts ∈ samplePixFmts) :=
  ⟨by decide, by decide, negotiator_policy samplePixFmts (by decide) (by decide)⟩

/-- C9: when the first array entry is already the terminator, the
negotiator returns the sentinel `AV_PIX_FMT_NONE` itself, which is not a
member of the (empty) candidate set, so the membership guarantee needs
the at-least-one-entry precondition. -/
theorem negotiator_empty_candidates (rest : List Int) :
    ssa_get_hw_format (AV_PIX_FMT_NONE :: rest) = AV_PIX_FMT_NONE
    ∧ candidates (AV_PIX_FMT_NONE :: rest) = []
    ∧ ssa_get_hw_format (AV_PIX_FMT_NONE :: rest)
        ∉ candidates (AV_PIX_FMT_NONE :: rest) := by
  simp [ssa_get_hw_format, ssa_scan, candidates]

/-- C3: when hardware device-context creation fails (negative status),
the setup routine returns that status unchanged and leaves the codec
context completely unmodified; in particular `get_format` and
`hw_device_ctx` keep their previous values. -/
theorem setup_failure_unchanged (env : SetupEnv) (ctx : AVCodecContext)
    (h : env.createErr < 0) :
    (ssa_setup_videotoolbox env ctx).ret = env.createErr
    ∧ (ssa_setup_videotoolbox env ctx).ctx = ctx
    ∧ (ssa_setup_videotoolbox env ctx).ctx.get_format = ctx.get_format
    ∧ (ssa_setup_videotoolbox env ctx).ctx.hw_device_ctx = ctx.hw_device_ctx := by
  simp [ssa_setup_videotoolbox, h]

/-- Witness for C3 at a concrete failing environment. -/
theorem setup_failure_unchanged_witness :
    failEnv.createErr < 0
    ∧ ((ssa_setup_videotoolbox failEnv emptyCodecCtx).ret = failEnv.createErr
       ∧ (ssa_setup_videotoolbox failEnv emptyCodecCtx).ctx = emptyCodecCtx
       ∧ (ssa_setup_videotoolbox failEnv emptyCodecCtx).ctx.get_format
           = emptyCodecCtx.get_format
       ∧ (ssa_setup_videotoolbox failEnv emptyCodecCtx).ctx.hw_device_ctx
           = emptyCodecCtx.hw_device_ctx) :=
  ⟨by decide, setup_failure_unchanged failEnv emptyCodecCtx (by decide)⟩

/-- C7: when device-context creation and the reference duplication both
succeed, the routine returns 0, sets only `get_format` (to the
negotiator) and `hw_device_ctx` (to the one attached reference), leaves
the remaining codec-context fields unchanged, ends with exactly one
outstanding reference on the device, and holds no local reference. -/
theorem setup_success_effects (env : SetupEnv) (ctx : AVCodecContext)
    (hok : 0 ≤ env.createErr) (hdup : env.bufferRefOk = true) :
    (ssa_setup_videotoolbox env ctx).ret = 0
    ∧ (ssa_setup_videotoolbox env ctx).ctx.get_format
        = some GetFormatFn.ssaGetHwFormat
    ∧ (ssa_setup_videotoolbox env ctx).ctx.hw_device_ctx = some ()
    ∧ (ssa_setup_videotoolbox env ctx).ctx.otherFields = ctx.otherFields
    ∧ (ssa_setup_videotoolbox env ctx).devRefcount = 1
    ∧ (ssa_setup_videotoolbox env ctx).localRef = none := by
  have h : ¬env.createErr < 0 := not_lt.mpr hok
  simp [ssa_setup_videotoolbox, h, hdup]

/-- Witness for C7 (amended) at a concrete environment where both
external calls succeed. -/
theorem setup_success_effects_witness :
    0 ≤ okEnv.createErr ∧ okEnv.bufferRefOk = true
    ∧ ((ssa_setup_videotoolbox okEnv emptyCodecCtx).ret = 0
       ∧ (ssa_setup_videotoolbox okEnv emptyCodecCtx).ctx.get_format
           = some GetFormatFn.ssaGetHwFormat
       ∧ (ssa_setup_videotoolbox okEnv emptyCodecCtx).ctx.hw_device_ctx = some ()
       ∧ (ssa_setup_videotoolbox okEnv emptyCodecCtx).ctx.otherFields
           = emptyCodecCtx.otherFields
       ∧ (ssa_setup_videotoolbox okEnv emptyCodecCtx).devRefcount = 1
       ∧ (ssa_setup_videotoolbox okEnv emptyCodecCtx).localRef = none) :=
  ⟨by decide, by decide, setup_success_effects okEnv emptyCodecCtx (by decide) (by decide)⟩

/-- Counterexample to C7 as stated: in the environment where device
creation succeeds (status 0) but the reference duplication returns NULL,
the routine returns 0 yet attaches no device reference to the codec
context — `hw_device_ctx` ends NULL and the device has no outstanding
reference, refuting the unconditional "attaches exactly one owned
reference". -/
theorem setup_success_unconditional_cex :
    0 ≤ dupFailEnv.createErr
    ∧ (ssa_setup_videotoolbox dupFailEnv emptyCodecCtx).ret = 0
    ∧ (ssa_setup_videotoolbox dupFailEnv emptyCodecCtx).ctx.hw_device_ctx = none
    ∧ ¬(ssa_setup_videotoolbox dupFailEnv emptyCodecCtx).devRefcount = 1 := by
  decide

/-- C10: when device creation succeeds but the reference duplication
(`av_buffer_ref`) returns NULL, the routine still returns 0 and still
installs the negotiator, while the codec context's `hw_device_ctx` ends
NULL (and the created device ends with no outstanding reference). -/
theorem setup_dup_failure_still_success (env : SetupEnv) (ctx : AVCodecContext)
    (hok : 0 ≤ env.createErr) (hdup : env.bufferRefOk = false) :
    (ssa_setup_videotoolbox env ctx).ret = 0
    ∧ (ssa_setup_videotoolbox env ctx).ctx.get_format
        = some GetFormatFn.ssaGetHwFormat
    ∧ (ssa_setup_videotoolbox env ctx).ctx.hw_device_ctx = none
    ∧ (ssa_setup_videotoolbox env ctx).devRefcount = 0 := by
  have h : ¬env.createErr < 0 := not_lt.mpr hok
  simp [ssa_setup_videotoolbox, h, hdup]

/-- Witness for C10 at a concrete environment where only the duplication
fails. -/
theorem setup_dup_failure_still_success_witness :
    0 ≤ dupFailEnv.createErr ∧ dupFailEnv.bufferRefOk = false
    ∧ ((ssa_setup_videotoolbox dupFailEnv emptyCodecCtx).ret = 0
       ∧ (ssa_setup_videotoolbox dupFailEnv emptyCodecCtx).ctx.get_format
           = some GetFormatFn.ssaGetHwFormat
       ∧ (ssa_setup_videotoolbox dupFailEnv emptyCodecCtx).ctx.hw_device_ctx = none
       ∧ (ssa_setup_videotoolbox dupFailEnv emptyCodecCtx).devRefcount = 0) :=
  ⟨by decide, by decide,
   setup_dup_failure_still_success dupFailEnv emptyCodecCtx (by decide) (by decide)⟩

/-- C8: the two sentinel accessors are pure constants: both values are
negative, distinct from each other, and equal across any two calls. -/
theorem sentinel_accessors (u v : Unit) :
    fferr_eagain u < 0
    ∧ fferr_eof u < 0
    ∧ fferr_eagain u ≠ fferr_eof u
    ∧ fferr_eagain u = fferr_eagain v
    ∧ fferr_eof u = fferr_eof v := by
  cases u
  cases v
  decide

end SirSnoopsALot
